import Mathlib

/-!
Verification of the data-export-service repository: a shallow embedding of the
export job pipeline (src/routes/export_routes.py, src/services/export_service.py,
src/services/s3_service.py, src/services/dashboard_service.py,
src/workers/export_worker.py, src/config/config.py) and proofs of the
specification's claims about it.
-/

namespace ExportSvc

/-! ## Data model (src/models/export_model.py) -/

/-- The `ExportStatus` enum from src/models/export_model.py. -/
inductive ExportStatus where
  | PENDING
  | IN_PROGRESS
  | COMPLETED
  | FAILED
  | SUPERSEDED
deriving DecidableEq, Repr

/-- A calendar date as produced by `datetime.strptime(s, '%Y-%m-%d').date()`. -/
structure PyDate where
  year : Nat
  month : Nat
  day : Nat
deriving DecidableEq, Repr

/-- Python `date` ordering is lexicographic on (year, month, day);
`a < b` as used in the route's `date_from > date_to` check. -/
def PyDate.lt (a b : PyDate) : Bool :=
  a.year < b.year ∨
  (a.year = b.year ∧ a.month < b.month) ∨
  (a.year = b.year ∧ a.month = b.month ∧ a.day < b.day)

/-- Split a character list on a separator (the field structure of the
`'%Y-%m-%d'` format). -/
def splitOnChar (sep : Char) : List Char → List (List Char)
  | [] => [[]]
  | c :: rest =>
    match splitOnChar sep rest, decide (c = sep) with
    | r, true => [] :: r
    | [], false => [[c]]
    | cur :: rs, false => (c :: cur) :: rs

/-- Decimal value of a nonempty all-digit field, as strptime reads each
format field. -/
def natOfDigits (cs : List Char) : Option Nat :=
  if cs ≠ [] ∧ cs.all Char.isDigit then
    some (cs.foldl (fun n c => 10 * n + (c.toNat - 48)) 0)
  else none

/-- Embedding of `datetime.strptime(s, '%Y-%m-%d').date()` succeeding or raising ValueError,
embedded as an Option. The format splits on the two dashes and requires three
numeric fields with a plausible month and day (strptime's full calendar
checks are not load-bearing for any claim; every concrete date used below is
well-formed either way). -/
def parseDate (s : String) : Option PyDate :=
  match (splitOnChar '-' s.data).map natOfDigits with
  | [some yn, some mn, some dn] =>
    if 1 ≤ mn ∧ mn ≤ 12 ∧ 1 ≤ dn ∧ dn ≤ 31 then some ⟨yn, mn, dn⟩ else none
  | _ => none

/-- One row of the `exports` table (src/models/export_model.py). `reference_id`
is a UUID in the source; the embedding mints it from a counter, which preserves
the only property used anywhere (uniqueness / identity). Timestamps are
integer epochs. -/
structure Export where
  reference_id : Nat
  table_name : String
  date_from : PyDate
  date_to : PyDate
  dedup_key : String
  status : ExportStatus
  file_url : Option String := none
  file_size : Option Nat := none
  row_count : Option Nat := none
  retry_count : Nat := 0
  error_message : Option String := none
  created_at : Int := 0
  completed_at : Option Int := none
deriving DecidableEq, Repr

/-- The exports table plus the id-minting source for new `reference_id`s. -/
structure Ledger where
  rows : List Export
  nextId : Nat := 0
deriving DecidableEq, Repr

/-! ## Dedup key (src/routes/export_routes.py lines 43-45) -/

/-- The line `dedup_string = f"{table_name}|{date_from_str}|{date_to_str}"`. It is built
from the raw request strings, before date parsing. -/
def dedupString (table_name date_from_str date_to_str : String) : String :=
  table_name ++ "|" ++ date_from_str ++ "|" ++ date_to_str

/-- The digest `hashlib.sha256(dedup_string.encode()).hexdigest()`. The digest algorithm
is a fixed pure function of the input bytes; the embedding abstracts it as a
function parameter `sha256hex`, shared by every computation in one process or
another (the algorithm never changes between calls). -/
def dedupKey (sha256hex : String → String)
    (table_name date_from_str date_to_str : String) : String :=
  sha256hex (dedupString table_name date_from_str date_to_str)

/-! ## create_export route (src/routes/export_routes.py lines 14-118) -/

/-- The JSON body of a create-export request: the three required fields (absent
field modelled as `none`) and `data.get('force_refresh', False)`. -/
structure CreateRequest where
  table_name : Option String
  date_from : Option String
  date_to : Option String
  force_refresh : Bool := false
deriving DecidableEq, Repr

/-- Outcome of `S3Service.generate_presigned_url` on the stored file_url:
a fresh signed URL, or an exception. -/
inductive MintResult where
  | ok (url : String)
  | err
deriving DecidableEq, Repr

/-- Ambient state the route reads besides the ledger: `date.today()`, the
caller identity, `datetime.utcnow()` for row timestamps, and the behaviour of
`S3Service.generate_presigned_url` (keyed by the file_url it is given). -/
structure Env where
  today : PyDate
  user_id : String
  now : Int
  mint : Option String → MintResult

/-- The JSON response of the create-export route, with its HTTP status
implicit in the constructor. -/
inductive CreateResponse where
  /-- HTTP 400: `Missing required field: ...` -/
  | missingField (field : String)
  /-- HTTP 400: `Invalid date format. Use YYYY-MM-DD` -/
  | badDateFormat
  /-- HTTP 400: `date_from cannot be after date_to` -/
  | badRange
  /-- HTTP 200: `{reference_id, status, reused: True, file_url}` -/
  | reusedOk (reference_id : Nat) (status : ExportStatus) (reused : Bool) (file_url : String)
  /-- HTTP 201: `{reference_id, status, reused: False}` -/
  | created (reference_id : Nat) (status : ExportStatus) (reused : Bool)
deriving DecidableEq, Repr

/-- Result of one create-export request: the response, the ledger after all
commits, and the reference_ids passed to `export_task.delay`. -/
structure CreateOutcome where
  resp : CreateResponse
  ledger : Ledger
  enqueued : List Nat
deriving DecidableEq, Repr

/-- Lines 85-89: `Export.query.filter_by(dedup_key=...).filter(status.in_(
[COMPLETED, FAILED])).update({'status': SUPERSEDED})`. -/
def supersedeRow (key : String) (r : Export) : Export :=
  if r.dedup_key = key ∧ (r.status = .COMPLETED ∨ r.status = .FAILED) then
    { r with status := .SUPERSEDED }
  else r

/-- Lines 91-113: build the new PENDING row, append it, enqueue it, answer 201. -/
def createNewJob (env : Env) (L : Ledger) (table_name : String)
    (date_from date_to : PyDate) (key : String) : CreateOutcome :=
  let newRow : Export :=
    { reference_id := L.nextId
      table_name := table_name
      date_from := date_from
      date_to := date_to
      dedup_key := key
      status := .PENDING
      created_at := env.now }
  { resp := .created newRow.reference_id .PENDING false
    ledger := { rows := L.rows ++ [newRow], nextId := L.nextId + 1 }
    enqueued := [newRow.reference_id] }

/-- The route `create_export` (src/routes/export_routes.py lines 14-118), from the point
the JSON body is available. Control flow is the source's: required-field check,
date parsing, range check, dedup key, the `should_create_new` freshness rule,
the reuse lookup with presigned-URL minting (falling through to creation on
mint failure), the supersession update guarded by `should_create_new`, and the
insert+enqueue of the new PENDING row. -/
def createExport (sha256hex : String → String) (env : Env) (L : Ledger)
    (req : CreateRequest) : CreateOutcome :=
  match req.table_name with
  | none => ⟨.missingField "table_name", L, []⟩
  | some table_name =>
  match req.date_from with
  | none => ⟨.missingField "date_from", L, []⟩
  | some date_from_str =>
  match req.date_to with
  | none => ⟨.missingField "date_to", L, []⟩
  | some date_to_str =>
  match parseDate date_from_str, parseDate date_to_str with
  | none, _ => ⟨.badDateFormat, L, []⟩
  | some _, none => ⟨.badDateFormat, L, []⟩
  | some date_from, some date_to =>
  if PyDate.lt date_to date_from then ⟨.badRange, L, []⟩
  else
    let key := dedupKey sha256hex table_name date_from_str date_to_str
    let should_create_new := req.force_refresh ∨ date_to = env.today
    let fallthroughCreate : CreateOutcome :=
      let L' : Ledger :=
        if should_create_new then
          { L with rows := L.rows.map (supersedeRow key) }
        else L
      createNewJob env L' table_name date_from date_to key
    if should_create_new then
      fallthroughCreate
    else
      match L.rows.find? (fun r => r.dedup_key = key ∧ r.status = .COMPLETED) with
      | none => fallthroughCreate
      | some existing =>
        match env.mint existing.file_url with
        | .ok presigned_url =>
          let updated : Ledger :=
            { L with rows := L.rows.map (fun r =>
                if r.reference_id = existing.reference_id then
                  { r with file_url := some presigned_url }
                else r) }
          ⟨.reusedOk existing.reference_id existing.status true presigned_url,
           updated, []⟩
        | .err => fallthroughCreate

/-! ## Worker retry/backoff (src/workers/export_worker.py lines 7-36,
src/config/config.py line 33) -/

/-- The setting `Config.MAX_RETRY_ATTEMPTS = 3` (src/config/config.py). -/
def Config.MAX_RETRY_ATTEMPTS : Nat := 3

/-- The `max_retries` of the celery task `export_task`
(`retry_kwargs={'max_retries': 3, ...}`). -/
def exportTaskMaxRetries : Nat := 3

/-- What `export_task` does when `process_export` reports failure, as a
function of `self.request.retries` (the number of redeliveries already
performed, counting from 0). -/
inductive TaskOutcome where
  /-- The body does `return {'status': 'failed', ...}`: reported permanently failed,
  nothing re-raised, so no further automatic redelivery. -/
  | permanentFailure
  /-- The body does `raise self.retry(exc=exc, countdown=countdown)`: redelivery scheduled
  after `countdown` seconds. -/
  | retryScheduled (countdown : Nat)
deriving DecidableEq, Repr

/-- Lines 24-36 of src/workers/export_worker.py: the failure handler of
`export_task`. `if self.request.retries >= self.max_retries: return failed`;
otherwise `countdown = min(60 * (2 ** retries), 300)` and `self.retry`. -/
def exportTaskOnFailure (retries : Nat) : TaskOutcome :=
  if retries ≥ exportTaskMaxRetries then .permanentFailure
  else .retryScheduled (min (60 * 2 ^ retries) 300)

/-! ## Upload policy (src/services/s3_service.py lines 24-44) -/

/-- The 100 MB threshold `100 * 1024 * 1024` of `S3Service.upload_file`. -/
def uploadThreshold : Nat := 100 * 1024 * 1024

/-- Which upload path `upload_file` takes. -/
inductive UploadMethod where
  | singleShot
  | multipart
deriving DecidableEq, Repr

/-- The dispatch in `S3Service.upload_file`: `if file_size > 100 * 1024 * 1024:
return self._multipart_upload(...) else: return self._simple_upload(...)`. -/
def uploadMethod (file_size : Nat) : UploadMethod :=
  if file_size > uploadThreshold then .multipart else .singleShot

/-! ## Retention cleanup (src/workers/export_worker.py lines 38-79) -/

/-- Environment of one `cleanup_old_exports` run: `datetime.utcnow()` and the
behaviour of `S3Service.delete_file` on each file_url (`true` = raises). -/
structure CleanupEnv where
  now : Int
  deleteFails : String → Bool

/-- The selection filter (lines 49-52): `created_at < cutoff` and status in
`[COMPLETED, FAILED, SUPERSEDED]`, with `cutoff = utcnow() - timedelta(days=30)`
in seconds. -/
def cleanupCandidate (env : CleanupEnv) (r : Export) : Bool :=
  r.created_at < env.now - 30 * 86400 ∧
  (r.status = .COMPLETED ∨ r.status = .FAILED ∨ r.status = .SUPERSEDED)

/-- The per-item try block (lines 57-69): S3 delete is attempted only when
`export.file_url` is truthy (non-None, non-empty); if it raises, the `except`
logs and `continue`s, so `db.session.delete` and the count increment are
skipped for that row. Returns `true` when the row ends up deleted. -/
def cleanupItemSucceeds (env : CleanupEnv) (r : Export) : Bool :=
  match r.file_url with
  | none => true
  | some url => url = "" ∨ ¬ env.deleteFails url

/-- The sweep loop (`for export in old_exports`) (lines 57-69): each iteration that
completes its try block bumps `deleted_count`; an iteration whose S3 delete
raises is skipped by the `except ... continue`. -/
def cleanupSweep (env : CleanupEnv) : List Export → Nat
  | [] => 0
  | e :: rest =>
    (if cleanupItemSucceeds env e then 1 else 0) + cleanupSweep env rest

/-- The task `cleanup_old_exports` (lines 38-79): query the candidates, run the sweep,
commit once, return `{'deleted_count': deleted_count}`. `db.session.delete`
was called on exactly the candidates whose iteration completed, so the
committed table keeps every other row. -/
def cleanupOldExports (env : CleanupEnv) (L : Ledger) : Nat × Ledger :=
  let old_exports := L.rows.filter (cleanupCandidate env)
  let kept := L.rows.filter
    (fun r => !(cleanupCandidate env r && cleanupItemSucceeds env r))
  (cleanupSweep env old_exports, { L with rows := kept })

/-! ## Streaming CSV export (src/services/export_service.py lines 104-162) -/

/-- The validator `_is_valid_table_name`: `re.match(r'^[a-zA-Z_][a-zA-Z0-9_]*$', table_name)`.
The character classes are the explicit ASCII ones of the pattern. -/
def _is_valid_table_name (table_name : String) : Bool :=
  match table_name.data with
  | [] => false
  | c :: rest =>
    (c.isAlpha ∨ c = '_') ∧ rest.all (fun d => d.isAlphanum ∨ d = '_')

/-- One fetched row: an ordered association of column name to cell value,
as the DB-API row mapping seen by `csv.DictWriter`. -/
def Row : Type := List (String × String)

/-- One written line, `writer.writerow(dict(row))`: one CSV line holds, in fieldname order, the
row's value for each fieldname. -/
def rowLine (fieldnames : List String) (r : Row) : List String :=
  fieldnames.map (fun k => ((List.lookup k r).getD ""))

/-- The fetch loop (`while True`) of `_export_to_csv` (lines 131-153): `rows =
result.fetchmany(chunk_size)`, break on empty, lazily initialise the writer
with `fieldnames = rows[0].keys()` from the first chunk and emit the header,
then write and count each row. The successive `fetchmany` results are the
`chunks` list; the loop stops at the first empty fetch. Returns the CSV lines
written and `row_count`. -/
def csvLoop : List (List Row) → Option (List String) → List (List String) × Nat
  | [], _ => ([], 0)
  | [] :: _, _ => ([], 0)
  | (r :: rs) :: rest, writer =>
    let fieldnames := match writer with
      | none => r.map Prod.fst
      | some f => f
    let header : List (List String) := match writer with
      | none => [fieldnames]
      | some _ => []
    let tail := csvLoop rest (some fieldnames)
    (header ++ (r :: rs).map (rowLine fieldnames) ++ tail.1,
     (r :: rs).length + tail.2)

/-- The method `_export_to_csv` (lines 104-156): validate the table identifier (raising
`ValueError` otherwise, embedded as `Except.error`), then stream the chunks to
CSV and return the lines written together with the row count. -/
def _export_to_csv (table_name : String) (chunks : List (List Row)) :
    Except String (List (List String) × Nat) :=
  if ¬ _is_valid_table_name table_name then
    .error ("Invalid table name: " ++ table_name)
  else
    .ok (csvLoop chunks none)

/-! ## Dashboard manual retry (src/services/dashboard_service.py lines 379-405) -/

/-- A Python runtime value as it appears in the dashboard's status
comparisons: either an `ExportStatus` enum member or a `str`. -/
inductive PyVal where
  | vstatus (s : ExportStatus)
  | vstr (s : String)
deriving DecidableEq, Repr

/-- Python `==` between such values: an Enum member and a `str` are never
equal (`ExportStatus.FAILED == 'failed'` is `False`); same-type values compare
by payload. -/
def pyEq : PyVal → PyVal → Bool
  | .vstatus a, .vstatus b => a = b
  | .vstr a, .vstr b => a = b
  | _, _ => false

/-- Python `x in ys` over a list, using `pyEq`. -/
def pyIn (x : PyVal) (ys : List PyVal) : Bool :=
  ys.any (pyEq x)

/-- Result of `DashboardService.retry_export`. -/
inductive RetryResult where
  /-- Means `{'success': False, 'message': 'Export not found'}` -/
  | notFound
  /-- Means `{'success': False, 'message': 'Only failed exports can be retried'}` -/
  | refused
  /-- Means `{'success': True, 'new_reference_id': reference_id}` after re-enqueue -/
  | retried (new_reference_id : Nat)
deriving DecidableEq, Repr

/-- The method `retry_export` (src/services/dashboard_service.py lines 379-405). The
status guard is the source's `export.status not in ['failed']`, comparing the
enum-valued `status` column against the lowercase string `'failed'`. In the
branch past the guard the source assigns the raw string `'pending'` to the
enum column; the enum-typed embedding renders that as `PENDING` (the branch is
proved unreachable below, so the rendering carries no weight). Returns the
result, the ledger after the commit, and the reference_ids re-enqueued. -/
def retry_export (L : Ledger) (reference_id : Nat) :
    RetryResult × Ledger × List Nat :=
  match L.rows.find? (fun r => r.reference_id = reference_id) with
  | none => (.notFound, L, [])
  | some e =>
    if ¬ pyIn (.vstatus e.status) [.vstr "failed"] then
      (.refused, L, [])
    else
      let L' : Ledger :=
        { L with rows := L.rows.map (fun r =>
            if r.reference_id = e.reference_id then
              { r with status := .PENDING, error_message := none,
                       completed_at := none }
            else r) }
      (.retried reference_id, L', [reference_id])

/-- The dedup_key the request stored for the job it created: the key of the
row just inserted (the last row, appended by the insert), when the response
was 201. -/
def mintedDedupKey (out : CreateOutcome) : Option String :=
  match out.resp with
  | .created _ _ _ => out.ledger.rows.getLast?.map Export.dedup_key
  | _ => none

/-! ## Concrete scenes used by counterexamples and witnesses -/

/-- The concrete scene refuting C1 as stated: a COMPLETED job for the dedup
key sits in the ledger, the request is not fresh (`force_refresh` false,
`date_to` in the past), and minting the download capability fails, so the
route falls through to creating a new job. The digest function is
instantiated with a concrete function (`id`) and the old row carries exactly
the key the route computes for these parameters, as it would in production. -/
def c1old : Export :=
  { reference_id := 0, table_name := "bank_transactions",
    date_from := ⟨2024, 1, 1⟩, date_to := ⟨2024, 1, 31⟩,
    dedup_key := dedupString "bank_transactions" "2024-01-01" "2024-01-31",
    status := .COMPLETED,
    file_url :=
      some "s3://statement-exports/exports/bank_transactions/2024-01-01_2024-01-31/0.csv" }

/-- The outcome of the C1 scene: the mint-failure fall-through. -/
def c1out : CreateOutcome :=
  createExport id ⟨⟨2024, 2, 15⟩, "analyst", 1000, fun _ => .err⟩ ⟨[c1old], 1⟩
    ⟨some "bank_transactions", some "2024-01-01", some "2024-01-31", false⟩

/-- The concrete scene for C2: a reuse-serving request — a COMPLETED job with
the matching dedup key whose `file_url` holds the durable object-storage
location, and a minting service that returns a signed URL. -/
def c2old : Export :=
  { reference_id := 0, table_name := "bank_transactions",
    date_from := ⟨2024, 1, 1⟩, date_to := ⟨2024, 1, 31⟩,
    dedup_key := dedupString "bank_transactions" "2024-01-01" "2024-01-31",
    status := .COMPLETED,
    file_url :=
      some "s3://statement-exports/exports/bank_transactions/2024-01-01_2024-01-31/0.csv" }

/-- The outcome of the C2 scene. -/
def c2out : CreateOutcome :=
  createExport id
    ⟨⟨2024, 2, 15⟩, "analyst", 1000,
     fun _ => .ok "https://signed.example.com/download?sig=abc"⟩
    ⟨[c2old], 1⟩
    ⟨some "bank_transactions", some "2024-01-01", some "2024-01-31", false⟩

/-- The concrete scene for C3: two retention candidates (terminal status,
older than the 30-day window); the storage delete raises for the first one's
object and succeeds for the second's. -/
def c3fail : Export :=
  { reference_id := 10, table_name := "t1", date_from := ⟨2024, 1, 1⟩,
    date_to := ⟨2024, 1, 31⟩, dedup_key := "k1", status := .COMPLETED,
    file_url := some "s3://statement-exports/exports/a.csv", created_at := 0 }

/-- The second C3 candidate, whose object delete succeeds. -/
def c3ok : Export :=
  { reference_id := 11, table_name := "t1", date_from := ⟨2024, 1, 1⟩,
    date_to := ⟨2024, 1, 31⟩, dedup_key := "k1", status := .SUPERSEDED,
    file_url := some "s3://statement-exports/exports/b.csv", created_at := 0 }

/-- The C3 cleanup environment: well past the retention window, and
`delete_file` raises exactly on the first candidate's object. -/
def c3env : CleanupEnv :=
  ⟨30 * 86400 + 100, fun url => url = "s3://statement-exports/exports/a.csv"⟩

/-- The outcome of the C4 scene: a create-export request whose table_name
fails the identifier grammar, against an empty ledger. -/
def c4out : CreateOutcome :=
  createExport id ⟨⟨2024, 2, 15⟩, "analyst", 1000, fun _ => .err⟩ ⟨[], 0⟩
    ⟨some "1bad;DROP", some "2024-01-01", some "2024-01-31", false⟩

/-- A concrete FAILED job, eligible for manual retry according to the spec. -/
def c5failed : Export :=
  { reference_id := 7, table_name := "bank_transactions",
    date_from := ⟨2024, 1, 1⟩, date_to := ⟨2024, 1, 31⟩, dedup_key := "k7",
    status := .FAILED, error_message := some "source store timeout",
    retry_count := 3 }

/-! ## Path lemmas for create_export -/

/-- A request with an unparsable date is rejected before any ledger write. -/
theorem createExport_badFormat (sha : String → String) (env : Env) (L : Ledger)
    (t f g : String) (fr : Bool)
    (h : parseDate f = none ∨ parseDate g = none) :
    createExport sha env L ⟨some t, some f, some g, fr⟩ =
      ⟨.badDateFormat, L, []⟩ := by
  rcases h with h | h
  · simp [createExport, h]
  · cases hf : parseDate f <;> simp [createExport, hf, h]

/-- A request with `date_from` after `date_to` is rejected before any ledger
write. -/
theorem createExport_badRange (sha : String → String) (env : Env) (L : Ledger)
    (t f g : String) (fr : Bool) (df dg : PyDate)
    (hf : parseDate f = some df) (hg : parseDate g = some dg)
    (hord : PyDate.lt dg df = true) :
    createExport sha env L ⟨some t, some f, some g, fr⟩ = ⟨.badRange, L, []⟩ := by
  simp [createExport, hf, hg, hord]

/-- A validated request under the freshness rule (`force_refresh` set or
`date_to` = today) supersedes and creates, never consulting the reuse lookup. -/
theorem createExport_fresh (sha : String → String) (env : Env) (L : Ledger)
    (t f g : String) (fr : Bool) (df dg : PyDate)
    (hf : parseDate f = some df) (hg : parseDate g = some dg)
    (hord : PyDate.lt dg df = false)
    (hfresh : fr = true ∨ dg = env.today) :
    createExport sha env L ⟨some t, some f, some g, fr⟩ =
      createNewJob env
        { L with rows := L.rows.map (supersedeRow (dedupKey sha t f g)) }
        t df dg (dedupKey sha t f g) := by
  simp [createExport, hf, hg, hord, hfresh]

/-- A validated request outside the freshness rule whose reuse lookup finds no
COMPLETED job falls through to creation without any supersession. -/
theorem createExport_noMatch (sha : String → String) (env : Env) (L : Ledger)
    (t f g : String) (fr : Bool) (df dg : PyDate)
    (hf : parseDate f = some df) (hg : parseDate g = some dg)
    (hord : PyDate.lt dg df = false)
    (hfr : ¬ (fr = true ∨ dg = env.today))
    (hfind : L.rows.find? (fun r =>
        r.dedup_key = dedupKey sha t f g ∧ r.status = .COMPLETED) = none) :
    createExport sha env L ⟨some t, some f, some g, fr⟩ =
      createNewJob env L t df dg (dedupKey sha t f g) := by
  simp only [createExport, hf, hg, hord]
  rw [if_neg (by simp [hord])]
  rw [if_neg (by simpa using hfr)]
  rw [hfind]
  rw [if_neg (by simpa using hfr)]

/-- A validated request outside the freshness rule that finds a COMPLETED job
but fails to mint a signed URL for it falls through to creation without any
supersession. -/
theorem createExport_mintFail (sha : String → String) (env : Env) (L : Ledger)
    (t f g : String) (fr : Bool) (df dg : PyDate) (existing : Export)
    (hf : parseDate f = some df) (hg : parseDate g = some dg)
    (hord : PyDate.lt dg df = false)
    (hfr : ¬ (fr = true ∨ dg = env.today))
    (hfind : L.rows.find? (fun r =>
        r.dedup_key = dedupKey sha t f g ∧ r.status = .COMPLETED) = some existing)
    (hmint : env.mint existing.file_url = .err) :
    createExport sha env L ⟨some t, some f, some g, fr⟩ =
      createNewJob env L t df dg (dedupKey sha t f g) := by
  simp only [createExport, hf, hg, hord]
  rw [if_neg (by simp [hord])]
  rw [if_neg (by simpa using hfr)]
  rw [hfind]
  simp only [hmint]
  rw [if_neg (by simpa using hfr)]

/-- A validated request outside the freshness rule that finds a COMPLETED job
and mints a signed URL answers 200 `reused: true` — and commits the signed URL
into the found row's `file_url` column. -/
theorem createExport_reuse (sha : String → String) (env : Env) (L : Ledger)
    (t f g : String) (fr : Bool) (df dg : PyDate) (existing : Export) (url : String)
    (hf : parseDate f = some df) (hg : parseDate g = some dg)
    (hord : PyDate.lt dg df = false)
    (hfr : ¬ (fr = true ∨ dg = env.today))
    (hfind : L.rows.find? (fun r =>
        r.dedup_key = dedupKey sha t f g ∧ r.status = .COMPLETED) = some existing)
    (hmint : env.mint existing.file_url = .ok url) :
    createExport sha env L ⟨some t, some f, some g, fr⟩ =
      ⟨.reusedOk existing.reference_id existing.status true url,
       { L with rows := L.rows.map (fun r =>
           if r.reference_id = existing.reference_id then
             { r with file_url := some url }
           else r) },
       []⟩ := by
  simp only [createExport, hf, hg, hord]
  rw [if_neg (by simp [hord])]
  rw [if_neg (by simpa using hfr)]
  rw [hfind]
  simp only [hmint]

/-! ## Theorems -/

/-- C7: for every failed execution attempt `n` (counting from 0) below the
configured maximum of 3, the worker schedules redelivery after
`min(60 * 2^n, 300)` seconds; once the maximum is reached the job is reported
permanently failed and no redelivery is scheduled; the celery task's
`max_retries` agrees with `Config.MAX_RETRY_ATTEMPTS`. -/
theorem export_task_backoff_policy (n : Nat) :
    (n < exportTaskMaxRetries →
      exportTaskOnFailure n = .retryScheduled (min (60 * 2 ^ n) 300)) ∧
    (n ≥ exportTaskMaxRetries → exportTaskOnFailure n = .permanentFailure) ∧
    exportTaskMaxRetries = Config.MAX_RETRY_ATTEMPTS := by
  refine ⟨fun h => ?_, fun h => ?_, rfl⟩
  · simp [exportTaskOnFailure, Nat.not_le.mpr h]
  · simp [exportTaskOnFailure, h]

/-- Witness for C7 at concrete attempts: attempt 1 is redelivered after
min(120, 300) = 120 seconds, attempt 3 is permanent. -/
theorem export_task_backoff_policy_witness :
    exportTaskOnFailure 1 = .retryScheduled 120 ∧
    exportTaskOnFailure 3 = .permanentFailure := by
  refine ⟨?_, (export_task_backoff_policy 3).2.1 (by decide)⟩
  have h := (export_task_backoff_policy 1).1 (by decide)
  simpa using h

/-- C8: artifacts of size at most the 100 MB threshold are uploaded
single-shot; artifacts at least one byte above it go multipart. -/
theorem upload_file_size_policy (file_size : Nat) :
    (file_size ≤ uploadThreshold → uploadMethod file_size = .singleShot) ∧
    (uploadThreshold + 1 ≤ file_size → uploadMethod file_size = .multipart) := by
  constructor
  · intro h
    simp [uploadMethod, Nat.not_lt.mpr h]
  · intro h
    simp [uploadMethod, uploadThreshold] at *
    omega

/-- Witness for C8 at the boundary: exactly 100 MB is single-shot, one byte
more is multipart. -/
theorem upload_file_size_policy_witness :
    uploadMethod (100 * 1024 * 1024) = .singleShot ∧
    uploadMethod (100 * 1024 * 1024 + 1) = .multipart :=
  ⟨(upload_file_size_policy (100 * 1024 * 1024)).1 (by decide),
   (upload_file_size_policy (100 * 1024 * 1024 + 1)).2 (by decide)⟩

/-- C10: an export over a range with zero rows (the first fetch already comes
back empty) returns row_count 0 and writes no lines at all — in particular no
header row; and whenever a first nonempty chunk does arrive, the first line
written is the header taken from that chunk's column set. -/
theorem empty_export_has_no_header (t : String)
    (h : _is_valid_table_name t = true) :
    _export_to_csv t [] = .ok ([], 0) ∧
    ∀ (r : Row) (rs : List Row) (rest : List (List Row)),
      ((csvLoop ((r :: rs) :: rest) none).1).head? = some (r.map Prod.fst) := by
  constructor
  · simp [_export_to_csv, h, csvLoop]
  · intro r rs rest
    simp [csvLoop]

/-- Witness for C10 on a concrete valid table name. -/
theorem empty_export_has_no_header_witness :
    _is_valid_table_name "bank_transactions" = true ∧
    _export_to_csv "bank_transactions" [] = .ok ([], 0) :=
  ⟨by decide,
   (empty_export_has_no_header "bank_transactions" (by decide)).1⟩

/-- C6: a validated create-export request with `force_refresh` set or with
`date_to` equal to the current date always creates a new PENDING job, answers
201 with `reused: false` and enqueues it — whatever the ledger holds — and the
reuse machinery (the presigned-URL minting) is never consulted: the outcome is
the same under any minting behaviour. -/
theorem freshness_rule_always_creates (sha : String → String) (env : Env)
    (L : Ledger) (t f g : String) (fr : Bool) (df dg : PyDate)
    (hf : parseDate f = some df) (hg : parseDate g = some dg)
    (hord : PyDate.lt dg df = false)
    (hfresh : fr = true ∨ dg = env.today) :
    (createExport sha env L ⟨some t, some f, some g, fr⟩).resp
      = .created L.nextId .PENDING false ∧
    (createExport sha env L ⟨some t, some f, some g, fr⟩).enqueued = [L.nextId] ∧
    ∀ m₁ m₂ : Option String → MintResult,
      createExport sha { env with mint := m₁ } L ⟨some t, some f, some g, fr⟩
        = createExport sha { env with mint := m₂ } L ⟨some t, some f, some g, fr⟩ := by
  refine ⟨?_, ?_, ?_⟩
  · rw [createExport_fresh sha env L t f g fr df dg hf hg hord hfresh]; rfl
  · rw [createExport_fresh sha env L t f g fr df dg hf hg hord hfresh]; rfl
  · intro m₁ m₂
    rw [createExport_fresh sha { env with mint := m₁ } L t f g fr df dg hf hg
          hord hfresh,
        createExport_fresh sha { env with mint := m₂ } L t f g fr df dg hf hg
          hord hfresh]
    rfl

/-- Witness for C6: a request whose `date_to` is the current date, with
`force_refresh` false and a COMPLETED match in the ledger, still answers 201
`reused: false` with a fresh reference id. -/
theorem freshness_rule_always_creates_witness :
    (createExport id
        ⟨⟨2024, 1, 31⟩, "analyst", 1000, fun _ => .ok "https://signed.example/x"⟩
        ⟨[{ reference_id := 0, table_name := "bank_transactions",
            date_from := ⟨2024, 1, 1⟩, date_to := ⟨2024, 1, 31⟩,
            dedup_key := dedupString "bank_transactions" "2024-01-01" "2024-01-31",
            status := .COMPLETED }], 1⟩
        ⟨some "bank_transactions", some "2024-01-01", some "2024-01-31", false⟩).resp
      = .created 1 .PENDING false :=
  (freshness_rule_always_creates id
    ⟨⟨2024, 1, 31⟩, "analyst", 1000, fun _ => .ok "https://signed.example/x"⟩
    ⟨[{ reference_id := 0, table_name := "bank_transactions",
        date_from := ⟨2024, 1, 1⟩, date_to := ⟨2024, 1, 31⟩,
        dedup_key := dedupString "bank_transactions" "2024-01-01" "2024-01-31",
        status := .COMPLETED }], 1⟩
    "bank_transactions" "2024-01-01" "2024-01-31" false ⟨2024, 1, 1⟩ ⟨2024, 1, 31⟩
    (by decide) (by decide) (by decide) (Or.inr rfl)).1

/-- Counterexample to C1: the request inserts a new PENDING row (201 response),
both rows share the dedup key, yet the pre-existing COMPLETED job is NOT set
to SUPERSEDED — the supersession update only runs when `force_refresh` is set
or `date_to` is the current date, not on the mint-failure (or no-match)
creation paths. -/
theorem supersession_skipped_on_mint_failure :
    c1out.resp = .created 1 .PENDING false ∧
    c1out.ledger.rows.map Export.dedup_key
      = [dedupString "bank_transactions" "2024-01-01" "2024-01-31",
         dedupString "bank_transactions" "2024-01-01" "2024-01-31"] ∧
    c1out.ledger.rows.map Export.status = [.COMPLETED, .PENDING] := by
  refine ⟨rfl, rfl, rfl⟩

/-- C1 as amended: when the new canonical job is created because
`force_refresh` is set or `date_to` is the current date, every pre-existing
job sharing the dedup key whose status is COMPLETED or FAILED is set to
SUPERSEDED in the same operation that appends the new PENDING row; the
creation paths reached when no reusable COMPLETED job is found, or when
minting its download capability fails, append the new PENDING row without
superseding anything. -/
theorem supersession_exactly_on_fresh_create (sha : String → String)
    (env : Env) (L : Ledger) (t f g : String) (fr : Bool) (df dg : PyDate)
    (hf : parseDate f = some df) (hg : parseDate g = some dg)
    (hord : PyDate.lt dg df = false) :
    ((fr = true ∨ dg = env.today) →
      (createExport sha env L ⟨some t, some f, some g, fr⟩).ledger.rows
        = L.rows.map (supersedeRow (dedupKey sha t f g)) ++
          [{ reference_id := L.nextId, table_name := t, date_from := df,
             date_to := dg, dedup_key := dedupKey sha t f g,
             status := .PENDING, created_at := env.now }]) ∧
    (∀ r : Export, r.dedup_key = dedupKey sha t f g →
      (r.status = .COMPLETED ∨ r.status = .FAILED) →
      supersedeRow (dedupKey sha t f g) r = { r with status := .SUPERSEDED }) ∧
    (¬ (fr = true ∨ dg = env.today) →
      (L.rows.find? (fun r =>
          r.dedup_key = dedupKey sha t f g ∧ r.status = .COMPLETED) = none ∨
        (∃ e, L.rows.find? (fun r =>
            r.dedup_key = dedupKey sha t f g ∧ r.status = .COMPLETED) = some e ∧
          env.mint e.file_url = .err)) →
      (createExport sha env L ⟨some t, some f, some g, fr⟩).ledger.rows
        = L.rows ++
          [{ reference_id := L.nextId, table_name := t, date_from := df,
             date_to := dg, dedup_key := dedupKey sha t f g,
             status := .PENDING, created_at := env.now }]) := by
  refine ⟨fun hfresh => ?_, fun r h1 h2 => ?_, fun hfr hpath => ?_⟩
  · rw [createExport_fresh sha env L t f g fr df dg hf hg hord hfresh]; rfl
  · simp [supersedeRow, h1, h2]
  · rcases hpath with hnone | ⟨e, hsome, hmint⟩
    · rw [createExport_noMatch sha env L t f g fr df dg hf hg hord hfr hnone]
      rfl
    · rw [createExport_mintFail sha env L t f g fr df dg e hf hg hord hfr
            hsome hmint]
      rfl

/-- Witness for the amended C1, on a fresh (`force_refresh` true) request over
a ledger holding a COMPLETED and a FAILED job for the key: both become
SUPERSEDED and the PENDING row is appended. -/
theorem supersession_exactly_on_fresh_create_witness :
    (createExport id ⟨⟨2024, 2, 15⟩, "analyst", 7, fun _ => .err⟩
        ⟨[{ reference_id := 0, table_name := "t1", date_from := ⟨2024, 1, 1⟩,
            date_to := ⟨2024, 1, 31⟩,
            dedup_key := dedupString "t1" "2024-01-01" "2024-01-31",
            status := .COMPLETED },
          { reference_id := 1, table_name := "t1", date_from := ⟨2024, 1, 1⟩,
            date_to := ⟨2024, 1, 31⟩,
            dedup_key := dedupString "t1" "2024-01-01" "2024-01-31",
            status := .FAILED }], 2⟩
        ⟨some "t1", some "2024-01-01", some "2024-01-31", true⟩).ledger.rows.map
        Export.status
      = [.SUPERSEDED, .SUPERSEDED, .PENDING] := by
  rw [(supersession_exactly_on_fresh_create id
        ⟨⟨2024, 2, 15⟩, "analyst", 7, fun _ => .err⟩
        ⟨[{ reference_id := 0, table_name := "t1", date_from := ⟨2024, 1, 1⟩,
            date_to := ⟨2024, 1, 31⟩,
            dedup_key := dedupString "t1" "2024-01-01" "2024-01-31",
            status := .COMPLETED },
          { reference_id := 1, table_name := "t1", date_from := ⟨2024, 1, 1⟩,
            date_to := ⟨2024, 1, 31⟩,
            dedup_key := dedupString "t1" "2024-01-01" "2024-01-31",
            status := .FAILED }], 2⟩
        "t1" "2024-01-01" "2024-01-31" true ⟨2024, 1, 1⟩ ⟨2024, 1, 31⟩
        (by decide) (by decide) (by decide)).1 (Or.inl rfl)]
  rfl

/-- C2 fails on the code: the reuse path executes
`existing_export.file_url = presigned_url; db.session.commit()`, so after the
200 `reused: true` response the job row's stored file reference is the
time-limited signed URL, no longer the durable object-storage location it held
before the request. -/
theorem reuse_overwrites_stored_file_reference :
    c2old.file_url =
      some "s3://statement-exports/exports/bank_transactions/2024-01-01_2024-01-31/0.csv" ∧
    c2out.resp =
      .reusedOk 0 .COMPLETED true "https://signed.example.com/download?sig=abc" ∧
    c2out.ledger.rows.map Export.file_url =
      [some "https://signed.example.com/download?sig=abc"] :=
  ⟨rfl, rfl, rfl⟩

/-- Counterexample to C3: both rows are selected by the sweep, the first's
object delete raises — and contrary to the claim its ledger row is NOT
deleted and the reclaimed count does NOT include it: the sweep returns 1 and
keeps the failing row (while the second candidate is still processed). -/
theorem cleanup_failure_keeps_ledger_row :
    cleanupCandidate c3env c3fail = true ∧
    cleanupCandidate c3env c3ok = true ∧
    cleanupItemSucceeds c3env c3fail = false ∧
    cleanupOldExports c3env ⟨[c3fail, c3ok], 12⟩ = (1, ⟨[c3fail], 12⟩) :=
  ⟨rfl, rfl, rfl, rfl⟩

/-- C3 as amended: a per-item storage-delete failure never aborts the sweep —
every other candidate is still processed independently — but the failing job's
ledger row is retained, not deleted, and the returned reclaimed count counts
exactly the candidates whose delete succeeded. -/
theorem cleanup_per_item_isolation (env : CleanupEnv) (L : Ledger) :
    (cleanupOldExports env L).1 =
      L.rows.countP
        (fun r => cleanupCandidate env r && cleanupItemSucceeds env r) ∧
    (∀ r ∈ L.rows, cleanupCandidate env r = true →
      cleanupItemSucceeds env r = false →
      r ∈ (cleanupOldExports env L).2.rows) ∧
    (∀ r ∈ L.rows, cleanupCandidate env r = true →
      cleanupItemSucceeds env r = true →
      r ∉ (cleanupOldExports env L).2.rows) := by
  refine ⟨?_, fun r hr hc hs => ?_, fun r hr hc hs hmem => ?_⟩
  · show cleanupSweep env (L.rows.filter (cleanupCandidate env)) = _
    induction L.rows with
    | nil => rfl
    | cons a as ih =>
      by_cases hca : cleanupCandidate env a
      · simp [cleanupSweep, List.filter_cons, List.countP_cons, hca, ih]
        by_cases hsa : cleanupItemSucceeds env a <;>
          simp [cleanupSweep, hsa, ih, Nat.add_comm]
      · simp [List.filter_cons, List.countP_cons, hca, ih]
  · have hkeep : (!(cleanupCandidate env r && cleanupItemSucceeds env r)) = true := by
      simp [hc, hs]
    exact List.mem_filter.mpr ⟨hr, hkeep⟩
  · rw [show (cleanupOldExports env L).2.rows = L.rows.filter
        (fun r => !(cleanupCandidate env r && cleanupItemSucceeds env r))
        from rfl] at hmem
    rw [List.mem_filter] at hmem
    simp [hc, hs] at hmem

/-- Witness for the amended C3 on the concrete scene: the failing candidate's
row survives the sweep. -/
theorem cleanup_per_item_isolation_witness :
    c3fail ∈ (cleanupOldExports c3env ⟨[c3fail, c3ok], 12⟩).2.rows :=
  (cleanup_per_item_isolation c3env ⟨[c3fail, c3ok], 12⟩).2.1 c3fail
    (by simp) rfl rfl

/-- Counterexample to C4: the table name `"1bad;DROP"` fails the identifier
grammar, yet the create route accepts the request with 201, inserts a ledger
row carrying that table name, and enqueues the job — the route never consults
`_is_valid_table_name`, so no synchronous rejection happens. -/
theorem invalid_table_name_reaches_ledger :
    _is_valid_table_name "1bad;DROP" = false ∧
    c4out.resp = .created 0 .PENDING false ∧
    c4out.ledger.rows.map Export.table_name = ["1bad;DROP"] ∧
    c4out.enqueued = [0] :=
  ⟨rfl, rfl, rfl, rfl⟩

/-- C4 as amended: the create route does not validate the table identifier at
all — for any table name failing the grammar (and any table name at all), a
request with well-formed dates is accepted, a PENDING ledger row is inserted
and enqueued; the identifier grammar is enforced only later, inside the
worker's streaming engine, which raises `ValueError` for such a name at
execution time. -/
theorem invalid_table_name_rejected_only_in_worker (sha : String → String)
    (env : Env) (L : Ledger) (t f g : String) (fr : Bool) (df dg : PyDate)
    (hbad : _is_valid_table_name t = false)
    (hf : parseDate f = some df) (hg : parseDate g = some dg)
    (hord : PyDate.lt dg df = false)
    (hfind : L.rows.find? (fun r =>
        r.dedup_key = dedupKey sha t f g ∧ r.status = .COMPLETED) = none) :
    (createExport sha env L ⟨some t, some f, some g, fr⟩).resp
      = .created L.nextId .PENDING false ∧
    (createExport sha env L ⟨some t, some f, some g, fr⟩).enqueued
      = [L.nextId] ∧
    (createExport sha env L ⟨some t, some f, some g, fr⟩).ledger.rows.length
      = L.rows.length + 1 ∧
    ∀ chunks, _export_to_csv t chunks
      = .error ("Invalid table name: " ++ t) := by
  have hlast : ∀ chunks, _export_to_csv t chunks
      = .error ("Invalid table name: " ++ t) := by
    intro chunks
    simp [_export_to_csv, hbad]
  by_cases hfresh : fr = true ∨ dg = env.today
  · rw [createExport_fresh sha env L t f g fr df dg hf hg hord hfresh]
    refine ⟨rfl, rfl, ?_, hlast⟩
    simp [createNewJob]
  · rw [createExport_noMatch sha env L t f g fr df dg hf hg hord hfresh hfind]
    exact ⟨rfl, rfl, by simp [createNewJob], hlast⟩

/-- Witness for the amended C4 on the `"1bad;DROP"` scene. -/
theorem invalid_table_name_rejected_only_in_worker_witness :
    (createExport id ⟨⟨2024, 2, 15⟩, "analyst", 1000, fun _ => .err⟩ ⟨[], 0⟩
        ⟨some "1bad;DROP", some "2024-01-01", some "2024-01-31", false⟩).resp
      = .created 0 .PENDING false :=
  (invalid_table_name_rejected_only_in_worker id
    ⟨⟨2024, 2, 15⟩, "analyst", 1000, fun _ => .err⟩ ⟨[], 0⟩
    "1bad;DROP" "2024-01-01" "2024-01-31" false ⟨2024, 1, 1⟩ ⟨2024, 1, 31⟩
    rfl rfl rfl rfl rfl).1

/-- C5 fails on the code (code bug): `retry_export` guards with
`export.status not in ['failed']`, comparing the Enum-valued status column
against the lowercase string `'failed'`; a Python Enum member never equals a
str, so even a FAILED job is refused with `'Only failed exports can be
retried'` and the row is left unchanged — and in general the operation can
only ever answer not-found or refused, never perform the retry its own
docstring and message promise. -/
theorem manual_retry_never_fires :
    retry_export ⟨[c5failed], 8⟩ 7 = (.refused, ⟨[c5failed], 8⟩, []) ∧
    ∀ (L : Ledger) (i : Nat),
      (retry_export L i).1 = .notFound ∨ (retry_export L i).1 = .refused := by
  refine ⟨rfl, fun L i => ?_⟩
  unfold retry_export
  cases hfind : L.rows.find? (fun r => r.reference_id = i) with
  | none => left; rfl
  | some e => right; simp [pyIn, pyEq]

/-- Whenever a create-export request inserts a new job, the key it stores is
`sha256hex` of the dedup string of the three identity parameters — nothing
else (not the clock, the caller, the ledger contents or the minting service)
enters the digest. -/
theorem mintedDedupKey_eq (sha : String → String) (env : Env) (L : Ledger)
    (t f g : String) (fr : Bool) (k : String)
    (h : mintedDedupKey (createExport sha env L ⟨some t, some f, some g, fr⟩)
      = some k) :
    k = dedupKey sha t f g := by
  have createCase : ∀ (L' : Ledger) (df' dg' : PyDate),
      mintedDedupKey (createNewJob env L' t df' dg' (dedupKey sha t f g))
        = some k → k = dedupKey sha t f g := by
    intro L' df' dg' hc
    simp only [mintedDedupKey, createNewJob, List.getLast?_append_cons,
      List.getLast?_singleton, Option.map_some] at hc
    exact (Option.some_inj.mp hc).symm
  cases hpf : parseDate f with
  | none =>
    rw [createExport_badFormat sha env L t f g fr (Or.inl hpf)] at h
    simp [mintedDedupKey] at h
  | some df =>
  cases hpg : parseDate g with
  | none =>
    rw [createExport_badFormat sha env L t f g fr (Or.inr hpg)] at h
    simp [mintedDedupKey] at h
  | some dg =>
  cases hord : PyDate.lt dg df with
  | true =>
    rw [createExport_badRange sha env L t f g fr df dg hpf hpg hord] at h
    simp [mintedDedupKey] at h
  | false =>
  by_cases hfresh : fr = true ∨ dg = env.today
  · rw [createExport_fresh sha env L t f g fr df dg hpf hpg hord hfresh] at h
    exact createCase _ _ _ h
  · cases hfind : L.rows.find? (fun r =>
        r.dedup_key = dedupKey sha t f g ∧ r.status = .COMPLETED) with
    | none =>
      rw [createExport_noMatch sha env L t f g fr df dg hpf hpg hord hfresh
            hfind] at h
      exact createCase _ _ _ h
    | some existing =>
      cases hmint : env.mint existing.file_url with
      | err =>
        rw [createExport_mintFail sha env L t f g fr df dg existing hpf hpg
              hord hfresh hfind hmint] at h
        exact createCase _ _ _ h
      | ok url =>
        rw [createExport_reuse sha env L t f g fr df dg existing url hpf hpg
              hord hfresh hfind hmint] at h
        simp [mintedDedupKey] at h

/-- C9: the dedup_key is a pure deterministic function of
(table_name, date_from, date_to): two create-export computations over the
same three identity parameters — run at different times, for different
callers, against different ledgers, with different minting behaviour and
different `force_refresh` flags — store the identical digest, namely the
fixed digest of the dedup string. -/
theorem dedup_key_pure_deterministic (sha : String → String)
    (env₁ env₂ : Env) (L₁ L₂ : Ledger) (t f g : String) (fr₁ fr₂ : Bool)
    (k₁ k₂ : String)
    (h₁ : mintedDedupKey
      (createExport sha env₁ L₁ ⟨some t, some f, some g, fr₁⟩) = some k₁)
    (h₂ : mintedDedupKey
      (createExport sha env₂ L₂ ⟨some t, some f, some g, fr₂⟩) = some k₂) :
    k₁ = k₂ ∧ k₁ = dedupKey sha t f g := by
  have e₁ := mintedDedupKey_eq sha env₁ L₁ t f g fr₁ k₁ h₁
  have e₂ := mintedDedupKey_eq sha env₂ L₂ t f g fr₂ k₂ h₂
  exact ⟨e₁.trans e₂.symm, e₁⟩

/-- Witness for C9: two runs over the same identity parameters — one fresh
(`force_refresh` true, empty ledger, one clock) and one a fall-through
creation (different clock, different ledger, failing mint) — store the same
key, the digest of the dedup string. -/
theorem dedup_key_pure_deterministic_witness :
    "t1|2024-01-01|2024-01-31" = "t1|2024-01-01|2024-01-31" ∧
    "t1|2024-01-01|2024-01-31" = dedupKey id "t1" "2024-01-01" "2024-01-31" :=
  dedup_key_pure_deterministic id
    ⟨⟨2024, 5, 5⟩, "analyst", 1, fun _ => .ok "https://signed.example/x"⟩
    ⟨⟨2025, 6, 6⟩, "other-caller", 99, fun _ => .err⟩
    ⟨[], 0⟩
    ⟨[{ reference_id := 4, table_name := "t9", date_from := ⟨2023, 1, 1⟩,
        date_to := ⟨2023, 1, 2⟩, dedup_key := "other", status := .FAILED }], 5⟩
    "t1" "2024-01-01" "2024-01-31" true false
    "t1|2024-01-01|2024-01-31" "t1|2024-01-01|2024-01-31" rfl rfl

end ExportSvc
